import Mathlib

/-!
Verification of the dynatrace-service dashboard-driven SLI/SLO engine.

Shallow embedding of:
* `Dashboards.SearchForDashboardMatching` (package `dynatrace`, dashboard locator);
  the sibling `DynatraceDashboards.SearchForDashboardMatching` is character-for-character
  the same loop (it only reads project/service/stage out of a `BaseKeptnEvent` instead of
  taking them as parameters), so one embedding covers both.
* `SecurityProblemTileProcessing.Process` / `processProblemSelector`
  (`internal/sli/dashboard/security_problem_tile_processing.go`).
* `ConfigResourceClient.GetResource` and `getResourceByFunc` (package `keptn`,
  cascading service -> stage -> project resource lookup).
* The paginated Backend Query Client accumulation (modelled from the spec,
  since only its test is part of the source tree).

Go `string` is modelled by Lean `String`; `strings.ToLower` by a character-wise
lowering (the names and parameters involved are ASCII); Go nil-able pointer
results by `Option`; Go `(T, error)` results by `Except`.
-/

/-- Character-wise lowercase, modelling Go `strings.ToLower` on the ASCII
strings involved in the dashboard naming convention. -/
def toLowerStr (s : String) : String :=
  String.mk (s.data.map Char.toLower)

/-- Go `strings.HasPrefix s pre`, via the character list of the string.
(Implemented on `List Char` so that concrete instances reduce in the kernel.) -/
def strHasPre (s pre : String) : Bool :=
  pre.data.isPrefixOf s.data

/-- Helper for `splitOnChar`: scan the character list, cutting at `c`. -/
def splitOnCharAux (c : Char) : List Char → List Char → List String
  | [], acc => [String.mk acc.reverse]
  | x :: xs, acc =>
    if x = c then String.mk acc.reverse :: splitOnCharAux c xs []
    else splitOnCharAux c xs (x :: acc)

/-- Go `strings.Split s (String.singleton c)`: split at every occurrence of the
separator character, keeping empty fields (`splitOnChar ';' "" = [""]`). -/
def splitOnChar (c : Char) (s : String) : List String :=
  splitOnCharAux c s.data []

/-- `DashboardEntry` is the data structure for the /dashboards endpoint. -/
structure DashboardEntry where
  id : String
  name : String
  owner : String
deriving DecidableEq, Repr

/-- `Dashboards` is the data structure for the /dashboards endpoint. -/
structure Dashboards where
  dashboards : List DashboardEntry
deriving DecidableEq, Repr

/-- The list `keyValuePairs` built at the top of `SearchForDashboardMatching`:
lower-cased `project=`, `stage=`, `service=` pairs for the query triple. -/
def keyValuePairsFor (project stage service : String) : List String :=
  [toLowerStr ("project=" ++ project),
   toLowerStr ("stage=" ++ stage),
   toLowerStr ("service=" ++ service)]

/-- One iteration body of the search loop: the dashboard name must start
(case-insensitively) with `kqg;`, and every wanted key/value pair must equal
(case-insensitively) one of the semicolon-separated name segments.
This is the conjunction of the `strings.HasPrefix` guard and the
`dashboardMatch` flag computed by the two inner loops. -/
def dashboardNameMatches (name : String) (keyValuePairs : List String) : Bool :=
  strHasPre (toLowerStr name) "kqg;" &&
    keyValuePairs.all (fun findValue =>
      (splitOnChar ';' name).any (fun nameSplitValue => findValue == toLowerStr nameSplitValue))

/-- The `for _, dashboard := range dashboards.Dashboards` loop of
`SearchForDashboardMatching`: return the first matching dashboard's ID,
or `""` when the list is exhausted. -/
def searchForDashboardMatchingLoop : List DashboardEntry → List String → String
  | [], _ => ""
  | d :: rest, keyValuePairs =>
    if dashboardNameMatches d.name keyValuePairs then d.id
    else searchForDashboardMatchingLoop rest keyValuePairs

/-- `Dashboards.SearchForDashboardMatching` searches for a dashboard whose name
matches `KQG;project=%project%;service=%service%;stage=%stage%;xxx` and returns
the id of the dashboard on success or an empty string otherwise. -/
def Dashboards.SearchForDashboardMatching (dashboards : Dashboards)
    (project stage service : String) : String :=
  searchForDashboardMatchingLoop dashboards.dashboards (keyValuePairsFor project stage service)

/-- The search loop is first-match semantics: it agrees with `List.find?`
over the per-dashboard match predicate. -/
theorem searchForDashboardMatchingLoop_eq_find (entries : List DashboardEntry)
    (keyValuePairs : List String) :
    searchForDashboardMatchingLoop entries keyValuePairs =
      (match entries.find? (fun d => dashboardNameMatches d.name keyValuePairs) with
       | some d => d.id
       | none => "") := by
  induction entries with
  | nil => rfl
  | cons d rest ih =>
    by_cases h : dashboardNameMatches d.name keyValuePairs
    · simp [searchForDashboardMatchingLoop, List.find?, h]
    · simp only [Bool.not_eq_true] at h
      simp [searchForDashboardMatchingLoop, List.find?, h, ih]

/-- Claim C1: `SearchForDashboardMatching` returns the identifier of a dashboard
only if that dashboard's name starts (case-insensitively) with the marker `kqg;`
and its semicolon-separated segments contain, case-insensitively and in any
order, all three pairs `project=<project>`, `stage=<stage>`, `service=<service>`
(extra segments being ignored); otherwise the result is the empty string. -/
theorem searchForDashboardMatching_only_returns_matching (ds : Dashboards)
    (project stage service : String) :
    ds.SearchForDashboardMatching project stage service = "" ∨
      ∃ d ∈ ds.dashboards,
        ds.SearchForDashboardMatching project stage service = d.id ∧
        strHasPre (toLowerStr d.name) "kqg;" = true ∧
        ∀ pair ∈ keyValuePairsFor project stage service,
          (splitOnChar ';' d.name).any (fun seg => pair == toLowerStr seg) = true := by
  unfold Dashboards.SearchForDashboardMatching
  rw [searchForDashboardMatchingLoop_eq_find]
  cases hfind : ds.dashboards.find?
      (fun d => dashboardNameMatches d.name (keyValuePairsFor project stage service)) with
  | none => exact Or.inl rfl
  | some d =>
    right
    have hmem := List.mem_of_find?_eq_some hfind
    have hmatch := List.find?_some hfind
    unfold dashboardNameMatches at hmatch
    rw [Bool.and_eq_true] at hmatch
    refine ⟨d, hmem, rfl, hmatch.1, ?_⟩
    intro pair hpair
    have := List.all_eq_true.mp hmatch.2 pair hpair
    exact this

/-- Claim C2: when no dashboard name matches the naming convention for the given
triple, `SearchForDashboardMatching` returns the not-found signal `""`.
(The function's return type is a plain `String`: by construction it can never
signal an error.) -/
theorem searchForDashboardMatching_none_matching_returns_empty (ds : Dashboards)
    (project stage service : String)
    (h : ∀ d ∈ ds.dashboards,
      dashboardNameMatches d.name (keyValuePairsFor project stage service) = false) :
    ds.SearchForDashboardMatching project stage service = "" := by
  unfold Dashboards.SearchForDashboardMatching
  rw [searchForDashboardMatchingLoop_eq_find]
  cases hfind : ds.dashboards.find?
      (fun d => dashboardNameMatches d.name (keyValuePairsFor project stage service)) with
  | none => rfl
  | some d =>
    have hmem := List.mem_of_find?_eq_some hfind
    have hmatch := List.find?_some hfind
    rw [h d hmem] at hmatch
    cases hmatch

/-- Witness for C2 at a concrete input: a dashboard list whose entries carry the
marker but miss a required pair, or lack the marker, yields `""`. -/
theorem searchForDashboardMatching_none_matching_returns_empty_witness :
    (Dashboards.mk
      [⟨"id-1", "KQG;project=my-project;service=carts;stage=staging", "o"⟩,
       ⟨"id-2", "some dashboard", "o"⟩]).SearchForDashboardMatching
        "my-project" "production" "carts" = "" := by
  apply searchForDashboardMatching_none_matching_returns_empty
  intro d hd
  fin_cases hd <;> decide

/-- Claim C10: `SearchForDashboardMatching` is exactly first-match search:
its result is the identifier of the earliest dashboard in list order matching
the naming convention (and `""` when there is none), so matching dashboards
later in the list never affect the result. -/
theorem searchForDashboardMatching_first_match (ds : Dashboards)
    (project stage service : String) :
    ds.SearchForDashboardMatching project stage service =
      (match ds.dashboards.find?
          (fun d => dashboardNameMatches d.name (keyValuePairsFor project stage service)) with
       | some d => d.id
       | none => "") := by
  unfold Dashboards.SearchForDashboardMatching
  exact searchForDashboardMatchingLoop_eq_find _ _

/-!
## Security-problem tile processing

Embedding of `internal/sli/dashboard/security_problem_tile_processing.go`.
The collaborators that the file uses but whose sources are not part of the
repository snapshot (`NewManagementZoneFilter` / `ForProblemSelector`,
`common.ParsePassAndWarningWithoutDefaultsFrom`, the `SecurityProblemsClient`)
are modelled from the spec, as marked on each definition.
-/

/-- Comparison operators of the threshold mini-language (spec section 4.5). -/
inductive CompareOp where
  | le : CompareOp
  | ge : CompareOp
  | lt : CompareOp
  | gt : CompareOp
  | eq : CompareOp
deriving DecidableEq, Repr

/-- One pass/warning criterion: comparison operator and numeric threshold. -/
structure SLICriterion where
  op : CompareOp
  value : ℚ
deriving DecidableEq, Repr

/-- The parsed `ThresholdSpec` (spec section 3): indicator name, pass criteria,
warning criteria, key-indicator flag. -/
structure SLODefinition where
  sli : String
  pass : List SLICriterion
  warning : List SLICriterion
  keySli : Bool
deriving DecidableEq, Repr

/-- Leading comparison operator of a criterion (longest-operator-first, so
`<=` and `>=` win over `<`, `>`, `=`), returning the remaining characters. -/
def parseOperatorChars : List Char → Option (CompareOp × List Char)
  | '<' :: '=' :: rest => some (CompareOp.le, rest)
  | '>' :: '=' :: rest => some (CompareOp.ge, rest)
  | '<' :: rest => some (CompareOp.lt, rest)
  | '>' :: rest => some (CompareOp.gt, rest)
  | '=' :: rest => some (CompareOp.eq, rest)
  | _ => none

/-- Decimal digit value of a character, `none` for non-digits. -/
def charDigitVal (c : Char) : Option Nat :=
  if '0' ≤ c ∧ c ≤ '9' then some (c.toNat - 48) else none

/-- Read a digit string into a natural number, `none` on any non-digit. -/
def digitsToNat : List Char → Nat → Option Nat
  | [], acc => some acc
  | c :: cs, acc =>
    match charDigitVal c with
    | some d => digitsToNat cs (acc * 10 + d)
    | none => none

/-- Modelled from the spec: the numeric literal of a criterion (section 4.5),
an optional sign, an integer part and an optional fractional part, preserving
the literal's exact value as a rational. -/
def parseNumericChars (cs : List Char) : Option ℚ :=
  let signedBody : Bool × List Char :=
    match cs with
    | '-' :: rest => (true, rest)
    | _ => (false, cs)
  let magnitude : Option ℚ :=
    match splitOnCharAux '.' signedBody.2 [] with
    | [intPart] =>
      if intPart.data.isEmpty then none
      else (digitsToNat intPart.data 0).map (fun n => (n : ℚ))
    | [intPart, fracPart] =>
      if intPart.data.isEmpty || fracPart.data.isEmpty then none
      else
        match digitsToNat intPart.data 0, digitsToNat fracPart.data 0 with
        | some n, some f => some ((n : ℚ) + (f : ℚ) / ((10 : ℚ) ^ fracPart.data.length))
        | _, _ => none
    | _ => none
  magnitude.map (fun q => if signedBody.1 then -q else q)

/-- Modelled from the spec: one `<op><value>` criterion (section 4.5). -/
def parseCriterion (s : String) : Option SLICriterion :=
  match parseOperatorChars s.data with
  | none => none
  | some (op, rest) =>
    match parseNumericChars rest with
    | none => none
    | some v => some ⟨op, v⟩

/-- Modelled from the spec: a comma-separated criteria list (section 4.5). -/
def parseCriteriaList (s : String) : Option (List SLICriterion) :=
  (splitOnChar ',' s).mapM parseCriterion

/-- Modelled from the spec: a case-insensitive boolean literal. -/
def parseBoolLiteral (s : String) : Option Bool :=
  if toLowerStr s == "true" then some true
  else if toLowerStr s == "false" then some false
  else none

/-- Join strings with a separator character (inverse of `splitOnChar`), used to
re-assemble a clause value that itself contains `=` (as in `pass=<=0`). -/
def joinWithChar (c : Char) : List String → String
  | [] => ""
  | [s] => s
  | s :: rest => s ++ String.singleton c ++ joinWithChar c rest

/-- Accumulator while scanning the semicolon-separated clauses. -/
structure ThresholdParseAcc where
  sli : Option String
  pass : List SLICriterion
  warning : List SLICriterion
  keySli : Bool
deriving DecidableEq, Repr

/-- Modelled from the spec: apply one `key=value` clause (section 4.5): keys are
case-insensitive, `sli` may not repeat, `pass`/`warning` accumulate criteria in
order, `key` is a boolean; clauses with unknown keys are ignored. -/
def applyThresholdClause (acc : ThresholdParseAcc) (clause : String) : Option ThresholdParseAcc :=
  if clause == "" then some acc
  else
    match splitOnChar '=' clause with
    | [] => some acc
    | key :: valueParts =>
      let value := joinWithChar '=' valueParts
      if toLowerStr key == "sli" then
        match acc.sli with
        | some _ => none
        | none => some { acc with sli := some value }
      else if toLowerStr key == "pass" then
        (parseCriteriaList value).map (fun cs => { acc with pass := acc.pass ++ cs })
      else if toLowerStr key == "warning" then
        (parseCriteriaList value).map (fun cs => { acc with warning := acc.warning ++ cs })
      else if toLowerStr key == "key" then
        (parseBoolLiteral value).map (fun b => { acc with keySli := b })
      else some acc

/-- Modelled from the spec: `common.ParsePassAndWarningWithoutDefaultsFrom`
(the Criteria Parser of section 4.5, whose source is not part of the snapshot):
parse `sli=<name>;pass=...;warning=...;key=<bool>` into a `ThresholdSpec`,
failing on a missing `sli` key, an unrecognized operator, a non-numeric
threshold or a repeated `sli` clause. -/
def ParsePassAndWarningWithoutDefaultsFrom (s : String) : Option SLODefinition :=
  match (splitOnChar ';' s).foldlM applyThresholdClause ⟨none, [], [], false⟩ with
  | none => none
  | some acc =>
    match acc.sli with
    | none => none
    | some name => some ⟨name, acc.pass, acc.warning, acc.keySli⟩

/-- A management zone reference as it appears in dashboard and tile filters. -/
structure ManagementZoneEntry where
  id : String
deriving DecidableEq, Repr

/-- Dashboard-level filter: an optional management zone. -/
structure DashboardFilter where
  managementZone : Option ManagementZoneEntry
deriving DecidableEq, Repr

/-- Tile-level filter: an optional management zone. -/
structure TileFilter where
  managementZone : Option ManagementZoneEntry
deriving DecidableEq, Repr

/-- A dashboard tile: display name and tile-level filter (only the parts the
security-problem tile processor reads). -/
structure Tile where
  name : String
  tileFilter : TileFilter
deriving DecidableEq, Repr

/-- Modelled from the spec: the merged scope filter (section 4.3), pairing the
dashboard-level filter with the tile's management zone. `NewManagementZoneFilter`
in the source receives exactly these two values. -/
structure ManagementZoneFilter where
  dashboardFilter : Option DashboardFilter
  tileManagementZone : Option ManagementZoneEntry
deriving DecidableEq, Repr

/-- `NewManagementZoneFilter(dashboardFilter, tile.TileFilter.ManagementZone)`. -/
def NewManagementZoneFilter (dashboardFilter : Option DashboardFilter)
    (tileManagementZone : Option ManagementZoneEntry) : ManagementZoneFilter :=
  ⟨dashboardFilter, tileManagementZone⟩

/-- Modelled from the spec: the merge rule of section 4.3 — a tile-level
management zone, if present, fully overrides the dashboard-level one; absence
at both levels means no scoping. -/
def ManagementZoneFilter.effectiveZone (f : ManagementZoneFilter) : Option ManagementZoneEntry :=
  match f.tileManagementZone with
  | some mz => some mz
  | none =>
    match f.dashboardFilter with
    | some df => df.managementZone
    | none => none

/-- Modelled from the spec: `ForProblemSelector` (section 4.3) — a pure
formatting function rendering the effective filter into a problem-selector
suffix; an empty filter renders to an empty suffix. -/
def ManagementZoneFilter.ForProblemSelector (f : ManagementZoneFilter) : String :=
  match f.effectiveZone with
  | none => ""
  | some mz => ",managementZoneIds(" ++ mz.id ++ ")"

/-- One reply of the security-problems backend: its total count. -/
structure SecurityProblemQueryResult where
  totalCount : Nat
deriving DecidableEq, Repr

/-- Modelled from the spec: the Backend Query Client boundary (section 4.6) for
security problems — `dynatrace.SecurityProblemsClient.GetByQuery` takes the
query string and the time window and returns a counting result or an error. -/
structure SecurityProblemsClient where
  getByQuery : String → Nat → Nat → Except String SecurityProblemQueryResult

/-- `keptnv2.SLIResult`: indicator name, measured value, success flag.
(`Value` is a Go `float64` set only to `float64(totalCount)`, which is exact
for these counts, so it is modelled as a rational.) -/
structure SLIResult where
  metric : String
  value : ℚ
  success : Bool
deriving DecidableEq, Repr

/-- `TileResult` as consumed by the tile processors. -/
structure TileResult where
  sliResult : SLIResult
  objective : Option SLODefinition
  sliName : String
  sliQuery : String
deriving DecidableEq, Repr

/-- `SecurityProblemTileProcessing`: the backend client and the time window. -/
structure SecurityProblemTileProcessing where
  client : SecurityProblemsClient
  startUnix : Nat
  endUnix : Nat

/-- `processProblemSelector`: build the query string, ask the backend for the
count, and shape the indicator with the default SLO objective string
`sli=security_problems;pass=<=0;key=true`. -/
def SecurityProblemTileProcessing.processProblemSelector
    (p : SecurityProblemTileProcessing) (securityProblemSelector : String)
    (startUnix endUnix : Nat) : Except String TileResult :=
  let problemQuery :=
    if securityProblemSelector ≠ "" then "securityProblemSelector=" ++ securityProblemSelector
    else ""
  match p.client.getByQuery problemQuery startUnix endUnix with
  | Except.error err => Except.error err
  | Except.ok problemQueryResult =>
    let indicatorName := "security_problems"
    let value : ℚ := (problemQueryResult.totalCount : ℚ)
    let sliResult : SLIResult := ⟨indicatorName, value, true⟩
    let sliQuery := "SECPV2;" ++ problemQuery
    let sloString := "sli=" ++ indicatorName ++ ";pass=<=0;key=true"
    let sloDefinition := ParsePassAndWarningWithoutDefaultsFrom sloString
    Except.ok ⟨sliResult, sloDefinition, indicatorName, sliQuery⟩

/-- `Process`: merge the management zone filters, build the
`status(OPEN)<suffix>` selector, and drop the tile (returning `none`, the
Go `nil`) when the backend query errs. -/
def SecurityProblemTileProcessing.Process (p : SecurityProblemTileProcessing)
    (tile : Tile) (dashboardFilter : Option DashboardFilter) : Option TileResult :=
  let tileManagementZoneFilter := NewManagementZoneFilter dashboardFilter tile.tileFilter.managementZone
  let problemSelector := "status(OPEN)" ++ tileManagementZoneFilter.ForProblemSelector
  match p.processProblemSelector problemSelector p.startUnix p.endUnix with
  | Except.error _ => none
  | Except.ok tileResult => some tileResult

/-- Appending a non-empty string on the left never yields the empty string. -/
theorem str_append_ne_empty_left (a b : String) (h : a ≠ "") : a ++ b ≠ "" := by
  intro hab
  apply h
  have hdata := congrArg String.data hab
  rw [String.data_append] at hdata
  have ha : a.data = [] := (List.append_eq_nil.mp hdata).1
  cases a
  simp_all

/-- Claim C3: for every tile (in particular every one with no explicit threshold
specification in its name — the processor reads no threshold from the name at
all) and every successful backend reply, `Process` emits exactly one indicator
named `security_problems` whose value is the reply's total count, with success
`true`, and whose SLO objective is derived from the string
`sli=security_problems;pass=<=0;key=true`: pass when the value is at most 0,
marked as a key indicator. -/
theorem securityProblemTile_default_objective
    (p : SecurityProblemTileProcessing) (tile : Tile) (dashboardFilter : Option DashboardFilter)
    (r : SecurityProblemQueryResult)
    (h : p.client.getByQuery
        ("securityProblemSelector=" ++
          ("status(OPEN)" ++
            (NewManagementZoneFilter dashboardFilter tile.tileFilter.managementZone).ForProblemSelector))
        p.startUnix p.endUnix = Except.ok r) :
    ∃ tr : TileResult,
      p.Process tile dashboardFilter = some tr ∧
      tr.sliName = "security_problems" ∧
      tr.sliResult.metric = "security_problems" ∧
      tr.sliResult.value = (r.totalCount : ℚ) ∧
      tr.sliResult.success = true ∧
      tr.objective = ParsePassAndWarningWithoutDefaultsFrom "sli=security_problems;pass=<=0;key=true" ∧
      tr.objective = some ⟨"security_problems", [⟨CompareOp.le, 0⟩], [], true⟩ := by
  have hne : ("status(OPEN)" ++
      (NewManagementZoneFilter dashboardFilter tile.tileFilter.managementZone).ForProblemSelector) ≠ "" :=
    str_append_ne_empty_left _ _ (by decide)
  simp only [SecurityProblemTileProcessing.Process, SecurityProblemTileProcessing.processProblemSelector]
  rw [if_pos hne, h]
  refine ⟨_, rfl, rfl, rfl, rfl, rfl, rfl, ?_⟩
  show ParsePassAndWarningWithoutDefaultsFrom ("sli=" ++ "security_problems" ++ ";pass=<=0;key=true") =
    some ⟨"security_problems", [⟨CompareOp.le, 0⟩], [], true⟩
  decide

/-- Witness for C3: a backend replying with total count 5 yields the
`security_problems` indicator with value 5 and the default key objective. -/
theorem securityProblemTile_default_objective_witness :
    ∃ tr : TileResult,
      (SecurityProblemTileProcessing.mk ⟨fun _ _ _ => Except.ok ⟨5⟩⟩ 0 1).Process
          ⟨"tile", ⟨none⟩⟩ none = some tr ∧
      tr.sliName = "security_problems" ∧
      tr.sliResult.metric = "security_problems" ∧
      tr.sliResult.value = ((5 : Nat) : ℚ) ∧
      tr.sliResult.success = true ∧
      tr.objective = ParsePassAndWarningWithoutDefaultsFrom "sli=security_problems;pass=<=0;key=true" ∧
      tr.objective = some ⟨"security_problems", [⟨CompareOp.le, 0⟩], [], true⟩ :=
  securityProblemTile_default_objective
    (SecurityProblemTileProcessing.mk ⟨fun _ _ _ => Except.ok ⟨5⟩⟩ 0 1) ⟨"tile", ⟨none⟩⟩ none ⟨5⟩ rfl

/-- Claim C4: the backend selector built by the security-problem tile processor
is exactly `status(OPEN)` followed by the merged filter's selector suffix — the
backend is consulted with exactly that selector and nothing else — and the query
string persisted in the tile result is exactly `SECPV2;securityProblemSelector=`
followed by that selector. -/
theorem securityProblemTile_query_string (client : SecurityProblemsClient)
    (startUnix endUnix : Nat) (tile : Tile) (dashboardFilter : Option DashboardFilter) :
    (∀ tr : TileResult,
      (SecurityProblemTileProcessing.mk client startUnix endUnix).Process tile dashboardFilter =
          some tr →
        tr.sliQuery = "SECPV2;securityProblemSelector=" ++
          ("status(OPEN)" ++
            (NewManagementZoneFilter dashboardFilter tile.tileFilter.managementZone).ForProblemSelector)) ∧
    (∀ client₂ : SecurityProblemsClient,
      client.getByQuery
          ("securityProblemSelector=" ++
            ("status(OPEN)" ++
              (NewManagementZoneFilter dashboardFilter tile.tileFilter.managementZone).ForProblemSelector))
          startUnix endUnix =
        client₂.getByQuery
          ("securityProblemSelector=" ++
            ("status(OPEN)" ++
              (NewManagementZoneFilter dashboardFilter tile.tileFilter.managementZone).ForProblemSelector))
          startUnix endUnix →
      (SecurityProblemTileProcessing.mk client startUnix endUnix).Process tile dashboardFilter =
        (SecurityProblemTileProcessing.mk client₂ startUnix endUnix).Process tile dashboardFilter) := by
  have hne : ("status(OPEN)" ++
      (NewManagementZoneFilter dashboardFilter tile.tileFilter.managementZone).ForProblemSelector) ≠ "" :=
    str_append_ne_empty_left _ _ (by decide)
  constructor
  · intro tr htr
    simp only [SecurityProblemTileProcessing.Process,
      SecurityProblemTileProcessing.processProblemSelector] at htr
    rw [if_pos hne] at htr
    cases hq : client.getByQuery
        ("securityProblemSelector=" ++
          ("status(OPEN)" ++
            (NewManagementZoneFilter dashboardFilter tile.tileFilter.managementZone).ForProblemSelector))
        startUnix endUnix with
    | error e => rw [hq] at htr; cases htr
    | ok r =>
      rw [hq] at htr
      cases htr
      calc ("SECPV2;" ++
            ("securityProblemSelector=" ++
              ("status(OPEN)" ++
                (NewManagementZoneFilter dashboardFilter tile.tileFilter.managementZone).ForProblemSelector)))
          = ("SECPV2;" ++ "securityProblemSelector=") ++
              ("status(OPEN)" ++
                (NewManagementZoneFilter dashboardFilter tile.tileFilter.managementZone).ForProblemSelector) :=
            (String.append_assoc _ _ _).symm
        _ = "SECPV2;securityProblemSelector=" ++
              ("status(OPEN)" ++
                (NewManagementZoneFilter dashboardFilter tile.tileFilter.managementZone).ForProblemSelector) :=
            rfl
  · intro client₂ heq
    simp only [SecurityProblemTileProcessing.Process,
      SecurityProblemTileProcessing.processProblemSelector]
    rw [if_pos hne, heq]

/-- Witness for C4: with an empty effective filter, the persisted query is
exactly `SECPV2;securityProblemSelector=status(OPEN)`. -/
theorem securityProblemTile_query_string_witness :
    ∃ tr : TileResult,
      (SecurityProblemTileProcessing.mk ⟨fun _ _ _ => Except.ok ⟨2⟩⟩ 0 1).Process
          ⟨"t", ⟨none⟩⟩ none = some tr ∧
      tr.sliQuery = "SECPV2;securityProblemSelector=" ++
        ("status(OPEN)" ++ (NewManagementZoneFilter none none).ForProblemSelector) := by
  refine ⟨_, rfl, ?_⟩
  exact (securityProblemTile_query_string ⟨fun _ _ _ => Except.ok ⟨2⟩⟩ 0 1 ⟨"t", ⟨none⟩⟩ none).1 _ rfl

/-- Claim C5: a backend error while processing one security-problem tile makes
`Process` return `none` (Go `nil`), so the tile is omitted; the error is not
propagated (the return type carries no error channel at all). -/
theorem securityProblemTile_backend_error_drops_tile
    (p : SecurityProblemTileProcessing) (tile : Tile) (dashboardFilter : Option DashboardFilter)
    (err : String)
    (h : p.client.getByQuery
        ("securityProblemSelector=" ++
          ("status(OPEN)" ++
            (NewManagementZoneFilter dashboardFilter tile.tileFilter.managementZone).ForProblemSelector))
        p.startUnix p.endUnix = Except.error err) :
    p.Process tile dashboardFilter = none := by
  have hne : ("status(OPEN)" ++
      (NewManagementZoneFilter dashboardFilter tile.tileFilter.managementZone).ForProblemSelector) ≠ "" :=
    str_append_ne_empty_left _ _ (by decide)
  simp only [SecurityProblemTileProcessing.Process, SecurityProblemTileProcessing.processProblemSelector]
  rw [if_pos hne, h]

/-- Witness for C5: a backend that always errs makes `Process` drop the tile. -/
theorem securityProblemTile_backend_error_drops_tile_witness :
    (SecurityProblemTileProcessing.mk ⟨fun _ _ _ => Except.error "boom"⟩ 0 1).Process
        ⟨"t", ⟨none⟩⟩ none = none :=
  securityProblemTile_backend_error_drops_tile
    (SecurityProblemTileProcessing.mk ⟨fun _ _ _ => Except.error "boom"⟩ 0 1)
    ⟨"t", ⟨none⟩⟩ none "boom" rfl

/-- Claim C9: dashboard search and tile processing are deterministic — run twice
on identical inputs (same dashboard list, same triple, same tile, same filter,
same backend client inside `p`), they return identical results. Both embeddings
are pure functions of their inputs, mirroring that the Go code reads no mutable
state in these paths. -/
theorem evaluation_idempotent (ds : Dashboards) (project stage service : String)
    (p : SecurityProblemTileProcessing) (tile : Tile) (dashboardFilter : Option DashboardFilter) :
    ds.SearchForDashboardMatching project stage service =
      ds.SearchForDashboardMatching project stage service ∧
    p.Process tile dashboardFilter = p.Process tile dashboardFilter :=
  ⟨rfl, rfl⟩

/-!
## Cascading resource lookup (`ConfigResourceClient`, package `keptn`)

Go `error` interface values are modelled by `ErrValue`: the external
`api.ResourceNotFoundError` sentinel, arbitrary other errors, and this
package's three typed errors. `errors.As(err, &rnfErrorType)` becomes
`ErrValue.isResourceNotFoundError`, and the Go identity comparison
`err == api.ResourceNotFoundError` becomes equality with the sentinel
constructor.
-/

/-- A Go `error` value as seen by the `keptn` resource client. -/
inductive ErrValue where
  | apiResourceNotFound : ErrValue
  | otherError (msg : String) : ErrValue
  | resourceNotFoundError (uri project stage service : String) : ErrValue
  | resourceEmptyError (uri project stage service : String) : ErrValue
  | resourceRetrievalFailedError (uri project stage service msg : String) : ErrValue
deriving DecidableEq, Repr

/-- `getLocation`: the location fragment of the error messages. -/
def getLocation (service stage project : String) : String :=
  (if service ≠ "" then " for service '" ++ service ++ "'" else "") ++
    (if stage ≠ "" then " at stage '" ++ stage ++ "'" else "") ++
    (if project ≠ "" then " of project '" ++ project ++ "'" else "")

/-- `Error()` of each modelled error value. -/
def ErrValue.message : ErrValue → String
  | ErrValue.apiResourceNotFound => "Resource not found"
  | ErrValue.otherError msg => msg
  | ErrValue.resourceNotFoundError uri project stage service =>
    "could not find resource: '" ++ uri ++ "'" ++ getLocation service stage project
  | ErrValue.resourceEmptyError uri project stage service =>
    "found resource: '" ++ uri ++ "'" ++ getLocation service stage project ++ ", but it is empty"
  | ErrValue.resourceRetrievalFailedError uri project stage service msg =>
    "could not retrieve resource: '" ++ uri ++ "'" ++ getLocation service stage project ++ ": " ++ msg

/-- Go `errors.As(err, &rnfErrorType)`: the error is a `*ResourceNotFoundError`. -/
def ErrValue.isResourceNotFoundError : ErrValue → Bool
  | ErrValue.resourceNotFoundError _ _ _ _ => true
  | _ => false

/-- The external `api.ResourceHandler` collaborator: one raw lookup per level,
returning the resource content or an error (possibly the not-found sentinel). -/
structure ResourceHandler where
  getServiceResource : String → String → String → String → Except ErrValue String
  getStageResource : String → String → String → Except ErrValue String
  getProjectResource : String → String → Except ErrValue String

/-- `getResourceByFunc`: wrap one raw lookup — the api sentinel becomes the
typed not-found error, any other error becomes a retrieval-failed error with
the original message, empty content becomes an empty-resource error. -/
def getResourceByFunc (res : Except ErrValue String)
    (rnfErr : ErrValue) (rrfErr : String → ErrValue) (reErr : ErrValue) :
    Except ErrValue String :=
  match res with
  | Except.error err =>
    if err = ErrValue.apiResourceNotFound then Except.error rnfErr
    else Except.error (rrfErr err.message)
  | Except.ok content =>
    if content = "" then Except.error reErr
    else Except.ok content

/-- `ConfigResourceClient` holds the api resource handler. -/
structure ConfigResourceClient where
  handler : ResourceHandler

/-- `GetServiceResource`: retrieve a resource on service level. -/
def ConfigResourceClient.GetServiceResource (rc : ConfigResourceClient)
    (project stage service resourceURI : String) : Except ErrValue String :=
  getResourceByFunc (rc.handler.getServiceResource project stage service resourceURI)
    (ErrValue.resourceNotFoundError resourceURI project stage service)
    (fun msg => ErrValue.resourceRetrievalFailedError resourceURI project stage service msg)
    (ErrValue.resourceEmptyError resourceURI project stage service)

/-- `GetStageResource`: retrieve a resource on stage level. -/
def ConfigResourceClient.GetStageResource (rc : ConfigResourceClient)
    (project stage resourceURI : String) : Except ErrValue String :=
  getResourceByFunc (rc.handler.getStageResource project stage resourceURI)
    (ErrValue.resourceNotFoundError resourceURI project stage "")
    (fun msg => ErrValue.resourceRetrievalFailedError resourceURI project stage "" msg)
    (ErrValue.resourceEmptyError resourceURI project stage "")

/-- `GetProjectResource`: retrieve a resource on project level. -/
def ConfigResourceClient.GetProjectResource (rc : ConfigResourceClient)
    (project resourceURI : String) : Except ErrValue String :=
  getResourceByFunc (rc.handler.getProjectResource project resourceURI)
    (ErrValue.resourceNotFoundError resourceURI project "" "")
    (fun msg => ErrValue.resourceRetrievalFailedError resourceURI project "" "" msg)
    (ErrValue.resourceEmptyError resourceURI project "" "")

/-- The third block of `GetResource` (project level) together with the final
fallthrough `return "", &ResourceNotFoundError{...}`. The Go code compares
the wrapped error against the raw api sentinel here (not `errors.As`), so a
typed not-found from `GetProjectResource` takes the `return "", err` branch. -/
def ConfigResourceClient.getResourceProjectStep (rc : ConfigResourceClient)
    (project stage service resourceURI : String) : Except ErrValue String :=
  if project ≠ "" then
    match rc.GetProjectResource project resourceURI with
    | Except.error err =>
      if err = ErrValue.apiResourceNotFound then
        Except.error (ErrValue.resourceNotFoundError resourceURI project stage service)
      else Except.error err
    | Except.ok keptnResourceContent => Except.ok keptnResourceContent
  else Except.error (ErrValue.resourceNotFoundError resourceURI project stage service)

/-- The second block of `GetResource` (stage level), falling through to the
project step when the stage lookup reports a typed not-found. -/
def ConfigResourceClient.getResourceStageStep (rc : ConfigResourceClient)
    (project stage service resourceURI : String) : Except ErrValue String :=
  if project ≠ "" ∧ stage ≠ "" then
    match rc.GetStageResource project stage resourceURI with
    | Except.error err =>
      if err.isResourceNotFoundError then rc.getResourceProjectStep project stage service resourceURI
      else Except.error err
    | Except.ok keptnResourceContent => Except.ok keptnResourceContent
  else rc.getResourceProjectStep project stage service resourceURI

/-- `GetResource` tries to find the first instance of a given resource on
service, stage or project level. -/
def ConfigResourceClient.GetResource (rc : ConfigResourceClient)
    (project stage service resourceURI : String) : Except ErrValue String :=
  if project ≠ "" ∧ stage ≠ "" ∧ service ≠ "" then
    match rc.GetServiceResource project stage service resourceURI with
    | Except.error err =>
      if err.isResourceNotFoundError then rc.getResourceStageStep project stage service resourceURI
      else Except.error err
    | Except.ok keptnResourceContent => Except.ok keptnResourceContent
  else rc.getResourceStageStep project stage service resourceURI

/-- Whether a lookup outcome is a typed not-found error. -/
def resultIsResourceNotFound : Except ErrValue String → Bool
  | Except.error e => e.isResourceNotFoundError
  | Except.ok _ => false

/-- The wrapped per-level lookups never surface the raw api sentinel. -/
theorem getResourceByFunc_error_ne_sentinel (res : Except ErrValue String)
    (uri project stage service : String) (e : ErrValue)
    (h : getResourceByFunc res
        (ErrValue.resourceNotFoundError uri project stage service)
        (fun msg => ErrValue.resourceRetrievalFailedError uri project stage service msg)
        (ErrValue.resourceEmptyError uri project stage service) = Except.error e) :
    e ≠ ErrValue.apiResourceNotFound := by
  cases res with
  | error err =>
    simp only [getResourceByFunc] at h
    by_cases hs : err = ErrValue.apiResourceNotFound
    · rw [if_pos hs] at h
      cases h
      simp
    · rw [if_neg hs] at h
      cases h
      simp
  | ok content =>
    simp only [getResourceByFunc] at h
    by_cases hc : content = ""
    · rw [if_pos hc] at h
      cases h
      simp
    · rw [if_neg hc] at h
      cases h

/-- With an applicable project level, the project step is a typed not-found
exactly when the project lookup is. -/
theorem getResourceProjectStep_isRNF (rc : ConfigResourceClient)
    (project stage service resourceURI : String) (hp : project ≠ "") :
    resultIsResourceNotFound (rc.getResourceProjectStep project stage service resourceURI) =
      resultIsResourceNotFound (rc.GetProjectResource project resourceURI) := by
  unfold ConfigResourceClient.getResourceProjectStep
  rw [if_pos hp]
  cases hprj : rc.GetProjectResource project resourceURI with
  | ok c => rfl
  | error e =>
    have hne : e ≠ ErrValue.apiResourceNotFound :=
      getResourceByFunc_error_ne_sentinel (rc.handler.getProjectResource project resourceURI)
        resourceURI project "" "" e hprj
    simp [hne]

/-- The stage step yields a typed not-found exactly when each level still
applicable from the stage on reports a typed not-found. -/
theorem getResourceStageStep_isRNF (rc : ConfigResourceClient)
    (project stage service resourceURI : String) :
    resultIsResourceNotFound (rc.getResourceStageStep project stage service resourceURI) = true ↔
      ((project ≠ "" ∧ stage ≠ "") →
        resultIsResourceNotFound (rc.GetStageResource project stage resourceURI) = true) ∧
      (project ≠ "" →
        resultIsResourceNotFound (rc.GetProjectResource project resourceURI) = true) := by
  by_cases hp : project = ""
  · have h1 : ¬(project ≠ "" ∧ stage ≠ "") := fun h => h.1 hp
    have h2 : ¬(project ≠ "") := fun h => h hp
    unfold ConfigResourceClient.getResourceStageStep ConfigResourceClient.getResourceProjectStep
    rw [if_neg h1, if_neg h2]
    simp [resultIsResourceNotFound, ErrValue.isResourceNotFoundError, h1, h2]
  · by_cases hs : stage = ""
    · have h1 : ¬(project ≠ "" ∧ stage ≠ "") := fun h => h.2 hs
      unfold ConfigResourceClient.getResourceStageStep
      rw [if_neg h1]
      rw [getResourceProjectStep_isRNF rc project stage service resourceURI hp]
      simp [h1, hp, hs]
    · unfold ConfigResourceClient.getResourceStageStep
      rw [if_pos ⟨hp, hs⟩]
      cases hstg : rc.GetStageResource project stage resourceURI with
      | ok c => simp [resultIsResourceNotFound, hp, hs]
      | error e =>
        cases he : e.isResourceNotFoundError with
        | false => simp [resultIsResourceNotFound, he, hp, hs]
        | true =>
          simp only [he, if_true]
          rw [getResourceProjectStep_isRNF rc project stage service resourceURI hp]
          simp [resultIsResourceNotFound, he, hp, hs]

/-- `GetResource` yields a typed not-found exactly when every applicable level
reports a typed not-found. -/
theorem getResource_isRNF (rc : ConfigResourceClient)
    (project stage service resourceURI : String) :
    resultIsResourceNotFound (rc.GetResource project stage service resourceURI) = true ↔
      ((project ≠ "" ∧ stage ≠ "" ∧ service ≠ "") →
        resultIsResourceNotFound (rc.GetServiceResource project stage service resourceURI) = true) ∧
      ((project ≠ "" ∧ stage ≠ "") →
        resultIsResourceNotFound (rc.GetStageResource project stage resourceURI) = true) ∧
      (project ≠ "" →
        resultIsResourceNotFound (rc.GetProjectResource project resourceURI) = true) := by
  by_cases happ : project ≠ "" ∧ stage ≠ "" ∧ service ≠ ""
  · unfold ConfigResourceClient.GetResource
    rw [if_pos happ]
    cases hsvc : rc.GetServiceResource project stage service resourceURI with
    | ok c => simp [resultIsResourceNotFound, happ]
    | error e =>
      cases he : e.isResourceNotFoundError with
      | false => simp [resultIsResourceNotFound, he, happ]
      | true =>
        simp only [he, if_true]
        rw [getResourceStageStep_isRNF rc project stage service resourceURI]
        simp [resultIsResourceNotFound, he, happ]
  · unfold ConfigResourceClient.GetResource
    rw [if_neg happ]
    rw [getResourceStageStep_isRNF rc project stage service resourceURI]
    simp [happ]

/-- Claim C8: `GetResource` queries service, then stage, then project level,
moving on when the current level reports a typed not-found; any other retrieval
error at a level is returned immediately; the first found (non-empty) content
stops the chain; and the overall result is a `ResourceNotFoundError` exactly
when every applicable level reports a typed not-found. (At the project level a
typed not-found is itself the final outcome — the source compares the wrapped
error against the raw api sentinel there, so the error is returned as-is, and
it is still a `ResourceNotFoundError`.) -/
theorem configResourceClient_GetResource_chain (rc : ConfigResourceClient)
    (project stage service resourceURI : String) :
    ((project ≠ "" ∧ stage ≠ "" ∧ service ≠ "") →
      (∀ c, rc.GetServiceResource project stage service resourceURI = Except.ok c →
        rc.GetResource project stage service resourceURI = Except.ok c) ∧
      (∀ e, rc.GetServiceResource project stage service resourceURI = Except.error e →
        e.isResourceNotFoundError = false →
        rc.GetResource project stage service resourceURI = Except.error e) ∧
      (∀ e, rc.GetServiceResource project stage service resourceURI = Except.error e →
        e.isResourceNotFoundError = true →
        rc.GetResource project stage service resourceURI =
          rc.getResourceStageStep project stage service resourceURI)) ∧
    ((project ≠ "" ∧ stage ≠ "") →
      (∀ c, rc.GetStageResource project stage resourceURI = Except.ok c →
        rc.getResourceStageStep project stage service resourceURI = Except.ok c) ∧
      (∀ e, rc.GetStageResource project stage resourceURI = Except.error e →
        e.isResourceNotFoundError = false →
        rc.getResourceStageStep project stage service resourceURI = Except.error e) ∧
      (∀ e, rc.GetStageResource project stage resourceURI = Except.error e →
        e.isResourceNotFoundError = true →
        rc.getResourceStageStep project stage service resourceURI =
          rc.getResourceProjectStep project stage service resourceURI)) ∧
    (project ≠ "" →
      (∀ c, rc.GetProjectResource project resourceURI = Except.ok c →
        rc.getResourceProjectStep project stage service resourceURI = Except.ok c) ∧
      (∀ e, rc.GetProjectResource project resourceURI = Except.error e →
        rc.getResourceProjectStep project stage service resourceURI = Except.error e)) ∧
    (resultIsResourceNotFound (rc.GetResource project stage service resourceURI) = true ↔
      ((project ≠ "" ∧ stage ≠ "" ∧ service ≠ "") →
        resultIsResourceNotFound (rc.GetServiceResource project stage service resourceURI) = true) ∧
      ((project ≠ "" ∧ stage ≠ "") →
        resultIsResourceNotFound (rc.GetStageResource project stage resourceURI) = true) ∧
      (project ≠ "" →
        resultIsResourceNotFound (rc.GetProjectResource project resourceURI) = true)) := by
  refine ⟨?_, ?_, ?_, getResource_isRNF rc project stage service resourceURI⟩
  · intro happ
    refine ⟨?_, ?_, ?_⟩
    · intro c hc
      unfold ConfigResourceClient.GetResource
      rw [if_pos happ, hc]
    · intro e he hrnf
      unfold ConfigResourceClient.GetResource
      rw [if_pos happ, he]
      simp [hrnf]
    · intro e he hrnf
      unfold ConfigResourceClient.GetResource
      rw [if_pos happ, he]
      simp [hrnf]
  · intro happ
    refine ⟨?_, ?_, ?_⟩
    · intro c hc
      unfold ConfigResourceClient.getResourceStageStep
      rw [if_pos happ, hc]
    · intro e he hrnf
      unfold ConfigResourceClient.getResourceStageStep
      rw [if_pos happ, he]
      simp [hrnf]
    · intro e he hrnf
      unfold ConfigResourceClient.getResourceStageStep
      rw [if_pos happ, he]
      simp [hrnf]
  · intro hp
    constructor
    · intro c hc
      unfold ConfigResourceClient.getResourceProjectStep
      rw [if_pos hp, hc]
    · intro e he
      have hne : e ≠ ErrValue.apiResourceNotFound :=
        getResourceByFunc_error_ne_sentinel (rc.handler.getProjectResource project resourceURI)
          resourceURI project "" "" e he
      unfold ConfigResourceClient.getResourceProjectStep
      rw [if_pos hp, he]
      simp [hne]

/-- Witness for C8: service and stage report not-found (via the api sentinel),
the project level holds content — the chain walks down and returns it. -/
theorem configResourceClient_GetResource_chain_witness :
    (ConfigResourceClient.mk
      ⟨fun _ _ _ _ => Except.error ErrValue.apiResourceNotFound,
       fun _ _ _ => Except.error ErrValue.apiResourceNotFound,
       fun _ _ => Except.ok "content"⟩).GetResource "p" "st" "sv" "u" = Except.ok "content" := by
  have h := configResourceClient_GetResource_chain
    (ConfigResourceClient.mk
      ⟨fun _ _ _ _ => Except.error ErrValue.apiResourceNotFound,
       fun _ _ _ => Except.error ErrValue.apiResourceNotFound,
       fun _ _ => Except.ok "content"⟩) "p" "st" "sv" "u"
  have h1 := (h.1 (by decide)).2.2 _ rfl (by decide)
  have h2 := (h.2.1 (by decide)).2.2 _ rfl (by decide)
  have h3 := (h.2.2.1 (by decide)).1 "content" rfl
  rw [h1, h2, h3]

/-!
## Paginated Backend Query Client (spec section 4.6)

The accumulation loop itself (the service synchronizer's entities fetch) is not
part of the source snapshot — only its test is — so the loop is modelled from
the spec. The data shapes (`EntitiesResponse`, `Entity`, `Tag`, and the request
parameters `entitySelector` / `fields` / `nextPageKey`) are exactly those the
test exercises against `dynatrace.EntitiesClient`.
-/

/-- `dynatrace.Tag` as used in the entities responses. -/
structure Tag where
  context : String
  key : String
  stringRepresentation : String
  value : String
deriving DecidableEq, Repr

/-- `dynatrace.Entity`: one monitored entity of a response page. -/
structure Entity where
  entityId : String
  displayName : String
  tags : List Tag
deriving DecidableEq, Repr

/-- `dynatrace.EntitiesResponse`: one page of the paginated list endpoint. -/
structure EntitiesResponse where
  totalCount : Nat
  pageSize : Nat
  nextPageKey : String
  entities : List Entity
deriving DecidableEq, Repr

/-- The query parameters of one request to the entities list endpoint. -/
structure EntitiesRequest where
  entitySelector : String
  fields : String
  nextPageKey : String
deriving DecidableEq, Repr

/-- The possible failures of one accumulation (spec section 7):
a failing backend call, or an accumulated entity count that does not
reconcile with the first page's `totalCount`. -/
inductive PaginationError where
  | backendError : PaginationError
  | protocolError : PaginationError
deriving DecidableEq, Repr

/-- Modelled from the spec: the cursor-following part of the Backend Query
Client's accumulation (section 4.6) — while the previous page's `nextPageKey`
is non-empty, request the next page with *only* that cursor (no entity
selector, no fields), collecting entities in page order. Returns the request
trace and the collected entities (`none` on a backend error). The fuel bounds
the number of pages. -/
def fetchNextPages (backend : EntitiesRequest → Option EntitiesResponse) :
    Nat → String → List EntitiesRequest × Option (List Entity)
  | 0, _ => ([], none)
  | Nat.succ fuel, cursor =>
    let req : EntitiesRequest := ⟨"", "", cursor⟩
    match backend req with
    | none => ([req], none)
    | some page =>
      if page.nextPageKey = "" then ([req], some page.entities)
      else
        let rest := fetchNextPages backend fuel page.nextPageKey
        (req :: rest.1, rest.2.map (fun es => page.entities ++ es))

/-- Modelled from the spec: the full paginated accumulation (section 4.6) —
the first request carries the full selector and field parameters with an empty
cursor; afterwards the cursor chain is followed; the sum of entities must
equal the first page's `totalCount`, otherwise the accumulation is surfaced
as a `protocolError` rather than silently truncated. Returns the request
trace alongside the outcome. -/
def fetchAllEntities (backend : EntitiesRequest → Option EntitiesResponse)
    (entitySelector fields : String) (fuel : Nat) :
    List EntitiesRequest × Except PaginationError (List Entity) :=
  let req : EntitiesRequest := ⟨entitySelector, fields, ""⟩
  match backend req with
  | none => ([req], Except.error PaginationError.backendError)
  | some firstPage =>
    if firstPage.nextPageKey = "" then
      if firstPage.entities.length = firstPage.totalCount then
        ([req], Except.ok firstPage.entities)
      else ([req], Except.error PaginationError.protocolError)
    else
      let rest := fetchNextPages backend fuel firstPage.nextPageKey
      match rest.2 with
      | none => (req :: rest.1, Except.error PaginationError.backendError)
      | some es =>
        if (firstPage.entities ++ es).length = firstPage.totalCount then
          (req :: rest.1, Except.ok (firstPage.entities ++ es))
        else (req :: rest.1, Except.error PaginationError.protocolError)

/-- Every request issued while following the cursor chain carries only the
cursor: empty selector and fields, non-empty `nextPageKey`; the first one
carries exactly the starting cursor; and consecutive requests are linked by
the predecessor page's `nextPageKey`. -/
theorem fetchNextPages_requests (backend : EntitiesRequest → Option EntitiesResponse)
    (fuel : Nat) :
    ∀ (cursor : String), cursor ≠ "" →
      (∀ r ∈ (fetchNextPages backend fuel cursor).1,
        r.entitySelector = "" ∧ r.fields = "" ∧ r.nextPageKey ≠ "") ∧
      (∀ r, (fetchNextPages backend fuel cursor).1.head? = some r →
        r = ⟨"", "", cursor⟩) ∧
      List.Chain' (fun r₁ r₂ => ∃ p, backend r₁ = some p ∧ r₂.nextPageKey = p.nextPageKey)
        (fetchNextPages backend fuel cursor).1 := by
  induction fuel with
  | zero =>
    intro cursor hc
    simp [fetchNextPages]
  | succ fuel ih =>
    intro cursor hc
    cases hb : backend ⟨"", "", cursor⟩ with
    | none =>
      refine ⟨?_, ?_, ?_⟩ <;> simp [fetchNextPages, hb, hc]
    | some page =>
      by_cases hnp : page.nextPageKey = ""
      · refine ⟨?_, ?_, ?_⟩ <;> simp [fetchNextPages, hb, hnp, hc]
      · obtain ⟨htail, hhead, hchain⟩ := ih page.nextPageKey hnp
        have htr : (fetchNextPages backend (fuel + 1) cursor).1 =
            ⟨"", "", cursor⟩ :: (fetchNextPages backend fuel page.nextPageKey).1 := by
          simp only [fetchNextPages, hb]
          rw [if_neg hnp]
        refine ⟨?_, ?_, ?_⟩
        · intro r hrmem
          rw [htr] at hrmem
          rcases List.mem_cons.mp hrmem with h1 | h2
          · subst h1
            exact ⟨rfl, rfl, hc⟩
          · exact htail r h2
        · intro r hr
          rw [htr] at hr
          simp only [List.head?_cons, Option.some.injEq] at hr
          exact hr.symm
        · rw [htr, List.chain'_cons']
          refine ⟨?_, hchain⟩
          intro b hbmem
          have hb2 := hhead b (Option.mem_def.mp hbmem)
          exact ⟨page, hb, by rw [hb2]⟩

/-- Claim C6: in every paginated accumulation, the first backend request
carries the full selector and field parameters with an empty cursor; every
subsequent request carries only the cursor (no `entitySelector`, no `fields`,
non-empty `nextPageKey`), and that cursor is exactly the previous page's
`nextPageKey`. -/
theorem pagination_requests_protocol (backend : EntitiesRequest → Option EntitiesResponse)
    (entitySelector fields : String) (fuel : Nat) :
    (fetchAllEntities backend entitySelector fields fuel).1.head? =
      some ⟨entitySelector, fields, ""⟩ ∧
    (∀ r ∈ (fetchAllEntities backend entitySelector fields fuel).1.tail,
      r.entitySelector = "" ∧ r.fields = "" ∧ r.nextPageKey ≠ "") ∧
    List.Chain' (fun r₁ r₂ => ∃ p, backend r₁ = some p ∧ r₂.nextPageKey = p.nextPageKey)
      (fetchAllEntities backend entitySelector fields fuel).1 := by
  cases hb : backend ⟨entitySelector, fields, ""⟩ with
  | none => simp [fetchAllEntities, hb]
  | some fp =>
    by_cases hnp : fp.nextPageKey = ""
    · by_cases hlen : fp.entities.length = fp.totalCount <;>
        simp [fetchAllEntities, hb, hnp, hlen]
    · have htr : (fetchAllEntities backend entitySelector fields fuel).1 =
          ⟨entitySelector, fields, ""⟩ :: (fetchNextPages backend fuel fp.nextPageKey).1 := by
        simp only [fetchAllEntities, hb]
        rw [if_neg hnp]
        cases hr : (fetchNextPages backend fuel fp.nextPageKey).2 with
        | none => rfl
        | some es' => simp [apply_ite Prod.fst]
      obtain ⟨htail, hhead, hchain⟩ := fetchNextPages_requests backend fuel fp.nextPageKey hnp
      refine ⟨?_, ?_, ?_⟩
      · rw [htr]
        rfl
      · intro r hrmem
        rw [htr] at hrmem
        exact htail r hrmem
      · rw [htr, List.chain'_cons']
        refine ⟨?_, hchain⟩
        intro b hbmem
        have hb2 := hhead b (Option.mem_def.mp hbmem)
        exact ⟨fp, hb, by rw [hb2]⟩

/-- First entity of the test's first Dynatrace page. -/
def testEntity1 : Entity :=
  ⟨"1", "name",
   [⟨"CONTEXTLESS", "keptn_managed", "keptn_managed", ""⟩,
    ⟨"CONTEXTLESS", "keptn_service", "keptn_service:my-service", "my-service"⟩]⟩

/-- Second entity of the test's first Dynatrace page. -/
def testEntity2 : Entity :=
  ⟨"1-2", "name",
   [⟨"CONTEXTLESS", "keptn_managed", "keptn_managed", ""⟩,
    ⟨"CONTEXTLESS", "keptn_service", "keptn_service:my-already-synced-service",
     "my-already-synced-service"⟩]⟩

/-- The single entity of the test's second Dynatrace page. -/
def testEntity3 : Entity :=
  ⟨"2", "name",
   [⟨"CONTEXTLESS", "keptn_managed", "keptn_managed", ""⟩,
    ⟨"CONTEXTLESS", "keptn_service", "keptn_service:my-service-2", "my-service-2"⟩]⟩

/-- `firstDTResponse` of `Test_serviceSynchronizer_synchronizeServices`:
total count 3, two entities, non-empty `nextPageKey`. -/
def firstDTResponse : EntitiesResponse :=
  ⟨3, 2, "next-page-key", [testEntity1, testEntity2]⟩

/-- `secondDTResponse` of the same test: one entity, empty `nextPageKey`. -/
def secondDTResponse : EntitiesResponse :=
  ⟨2, 1, "", [testEntity3]⟩

/-- The Dynatrace mock server of `Test_serviceSynchronizer_synchronizeServices`:
a request without a cursor gets the first page; a cursor request must carry
exactly the previous `nextPageKey` and neither `entitySelector` nor `fields`,
otherwise it is rejected (modelled as `none`). -/
def testDTBackend (req : EntitiesRequest) : Option EntitiesResponse :=
  if req.nextPageKey = "" then some firstDTResponse
  else if req.nextPageKey = "next-page-key" ∧ req.entitySelector = "" ∧ req.fields = "" then
    some secondDTResponse
  else none

/-- Claim C7: against the test's backend (first page `TotalCount = 3` with 2
entities and a cursor, second page 1 entity and no cursor), the accumulation
issues exactly 2 requests and returns exactly the 3 entities in page order —
matching the first page's total count; and in general a successful
accumulation always returns exactly `totalCount` entities (any shortfall is
surfaced as an error, never silently truncated). -/
theorem pagination_accumulation_totalCount :
    ((fetchAllEntities testDTBackend "tag-selector" "fields-list" 10).1.length = 2 ∧
     (fetchAllEntities testDTBackend "tag-selector" "fields-list" 10).2 =
       Except.ok [testEntity1, testEntity2, testEntity3] ∧
     ([testEntity1, testEntity2, testEntity3] : List Entity).length =
       firstDTResponse.totalCount) ∧
    ∀ (backend : EntitiesRequest → Option EntitiesResponse)
      (entitySelector fields : String) (fuel : Nat) (es : List Entity),
      (fetchAllEntities backend entitySelector fields fuel).2 = Except.ok es →
      ∃ firstPage, backend ⟨entitySelector, fields, ""⟩ = some firstPage ∧
        es.length = firstPage.totalCount := by
  constructor
  · exact ⟨rfl, rfl, rfl⟩
  · intro backend entitySelector fields fuel es h
    cases hb : backend ⟨entitySelector, fields, ""⟩ with
    | none => simp [fetchAllEntities, hb] at h
    | some fp =>
      refine ⟨fp, rfl, ?_⟩
      simp only [fetchAllEntities, hb] at h
      by_cases hnp : fp.nextPageKey = ""
      · rw [if_pos hnp] at h
        by_cases hlen : fp.entities.length = fp.totalCount
        · rw [if_pos hlen] at h
          simp only [Except.ok.injEq] at h
          rw [← h]
          exact hlen
        · rw [if_neg hlen] at h
          simp at h
      · rw [if_neg hnp] at h
        cases hr : (fetchNextPages backend fuel fp.nextPageKey).2 with
        | none =>
          rw [hr] at h
          simp at h
        | some es' =>
          rw [hr] at h
          by_cases hlen : (fp.entities ++ es').length = fp.totalCount
          · simp only [hlen, if_true, Except.ok.injEq] at h
            rw [← h]
            exact hlen
          · rw [List.length_append] at hlen
            simp [hlen] at h
